import Mathlib

/-!
Shallow embedding of `src/backend/main.py` (the hoglin article pipeline).

External primitives (SHA-256, ISO date parsing, the generative text and image
backends, PIL JPEG encoding, the filesystem) are modelled as explicit
parameters; everything else is translated line by line from the source.
Python dicts that hold the JSON records are modelled as association lists of
string key/value pairs, Python sets of hashes as duplicate-free string lists,
and a raised Python exception as the `PyResult.exn` constructor.
-/

namespace Hoglin

/-- A Python exception-or-value outcome: `ok v` is a normal return,
`exn msg` a raised exception propagating to the caller. -/
inductive PyResult (α : Type) where
  | ok (v : α)
  | exn (msg : String)
  deriving Repr, DecidableEq

/-- JSON objects written/read by the script: an ordered association list of
string keys to string values (all values the script stores are strings). -/
abbrev Dict := List (String × String)

/-- `data.get(k)`: first value bound to `k`, if any. -/
def dictGet (d : Dict) (k : String) : Option String :=
  match d with
  | [] => none
  | (k', v) :: rest => if k' = k then some v else dictGet rest k

/-- `data[k] = v`: replace the binding for `k` in place, else append. -/
def dictSet (d : Dict) (k v : String) : Dict :=
  match d with
  | [] => [(k, v)]
  | (k', v') :: rest => if k' = k then (k, v) :: rest else (k', v') :: dictSet rest k v

/-- Python truthiness of a string: non-empty. -/
def truthyStr (s : String) : Bool := !(s == "")

/-- Python truthiness of an optional string (`None` and `""` are falsy). -/
def truthyOpt : Option String → Bool
  | none => false
  | some s => truthyStr s

/-- `set.add`: insert a token into the hash set (modelled as a list),
keeping it duplicate-free. -/
def insertToken (s : List String) (t : String) : List String :=
  if t ∈ s then s else t :: s

/-- Whether `pat` is a prefix of `s` (character lists). -/
def listPrefixEq : List Char → List Char → Bool
  | [], _ => true
  | _ :: _, [] => false
  | c :: cs, d :: ds => c == d && listPrefixEq cs ds

/-- Whether `pat` occurs as a contiguous run inside `s` (character lists). -/
def containsSub : List Char → List Char → Bool
  | [], pat => pat.isEmpty
  | c :: rest, pat => listPrefixEq pat (c :: rest) || containsSub rest pat

/-- Python substring test `pat in s`. -/
def strContains (s pat : String) : Bool :=
  containsSub s.data pat.data

/-- `hash_article_id(raw_id, secret)` (main.py:30-32): SHA-256 hex digest of
`f"{secret}:{raw_id}"`. The digest function `sha` is the external
`hashlib.sha256(...).hexdigest()` primitive, passed in explicitly. -/
def hash_article_id (sha : String → String) (raw_id secret : String) : String :=
  sha (secret ++ ":" ++ raw_id)

/-- `load_recent_article_hashes` (main.py:35-69) restricted to one parsed
record: reads keys `article_hash` and `date`, skips falsy values, parses the
date via the external `datetime.fromisoformat` (modelled by `parseIso`,
yielding an absolute UTC timestamp in seconds — the naive-timezone branch is
folded into it), and keeps the hash when the date is at or after
`now - days * 86400`. -/
def load_recent_article_hashes (parseIso : String → Option Int) (now : Int)
    (days : Int) (store : List Dict) : List String :=
  store.foldl (fun hashes record =>
    match dictGet record "article_hash", dictGet record "date" with
    | some hashed_id, some date_str =>
      if truthyStr hashed_id && truthyStr date_str then
        match parseIso date_str with
        | some dt => if now - days * 86400 ≤ dt then insertToken hashes hashed_id else hashes
        | none => hashes
      else hashes
    | _, _ => hashes) []

/-- The hard-coded fallback key in `main` (main.py:393). -/
def demo_hash_key : String := "demo-secret-change-me-041f6a73"

/-- `main` lines 391-394: resolve `ARTICLE_HASH_KEY` from the environment,
substituting the demo key when it is unset or empty. -/
def resolve_hash_key (env : Option String) : String :=
  match env with
  | some k => if truthyStr k then k else demo_hash_key
  | none => demo_hash_key

/-- Title sanitisation shared by `save_emojipasta_json` (main.py:313-314) and
`generate_and_save_image` (main.py:376-377): keep alphanumerics, space,
hyphen, underscore; strip trailing spaces; spaces to underscores; first 50
characters. -/
def sanitize (t : String) : String :=
  let kept := t.data.filter (fun c => c.isAlphanum || c == ' ' || c == '-' || c == '_')
  let stripped := (kept.reverse.dropWhile (fun c => c == ' ')).reverse
  String.mk ((stripped.map (fun c => if c == ' ' then '_' else c)).take 50)

/-- Output directory constants (main.py:23-24), as relative path strings. -/
def NEWS_OUTPUT_DIR : String := "../frontend/public/news"

def NEWS_THUMBNAILS_DIR : String := "../frontend/public/thumbnails"

/-- `os.path.basename`: the part after the last slash. -/
def basename (s : String) : String :=
  String.mk ((s.data.reverse.takeWhile (fun c => c != '/')).reverse)

/-! ## Transform Engine (`convert_to_emojipasta`, main.py:201-305) -/

/-- One response of the generative text backend, as seen after
`json.loads(response.content.strip())`:
* `malformed` — not valid JSON, `json.loads` raises `JSONDecodeError`;
* `exnCall` — the backend call itself raises (transport error, timeout, ...);
* `obj d` — a JSON object (string-valued, per the prompt contract);
* `strVal s` — valid JSON that is a bare string (Python `in` then tests
  substrings, not keys). Other JSON values (numbers, arrays) behave like one
  of the retry paths and are not modelled separately. -/
inductive BackendResp where
  | malformed
  | exnCall
  | obj (d : Dict)
  | strVal (s : String)
  deriving Repr

/-- A value `convert_to_emojipasta` can return: the parsed JSON object, or a
bare JSON string that slipped through the substring check. -/
inductive PyVal where
  | obj (d : Dict)
  | strVal (s : String)
  deriving Repr, DecidableEq

/-- `max_retries = 3` (main.py:216). -/
def max_retries : Nat := 3

/-- The Python membership check `"headline" in result and "text" in result`
applied to a backend response (objects: key presence; strings: substrings);
`false` for responses that raised. -/
def validResp : BackendResp → Bool
  | .obj d => (dictGet d "headline").isSome && (dictGet d "text").isSome
  | .strVal s => strContains s "headline" && strContains s "text"
  | .malformed => false
  | .exnCall => false

/-- The payload a valid response returns. -/
def respPayload : BackendResp → Option PyVal
  | .obj d => some (.obj d)
  | .strVal s => some (.strVal s)
  | _ => none

/-- The body of the retry loop of `convert_to_emojipasta` (main.py:218-305),
with an explicit structural fuel: `fuel` counts the attempts still allowed,
so `fuel = 0` is exactly `attempt ≥ max_retries` when instantiated through
`convertFrom` below. `backend n` is the response of the single backend call
made on attempt `n`. Returns the Python return value (the parsed result, or
`none` when the loop falls through after the last attempt) together with the
total number of backend calls made. On a valid response the result is
returned at once; on an invalid object/string, a parse error or a call
exception, the loop retries until the final attempt, after which it ends
with no result (`break`/fall-through, main.py:289-305). -/
def convertGo (backend : Nat → BackendResp) : Nat → Nat → Option PyVal × Nat
  | 0, attempt => (none, attempt)
  | fuel + 1, attempt =>
    match backend attempt with
    | .obj result =>
      if (dictGet result "headline").isSome && (dictGet result "text").isSome then
        (some (.obj result), attempt + 1)
      else convertGo backend fuel (attempt + 1)
    | .strVal s =>
      if strContains s "headline" && strContains s "text" then
        (some (.strVal s), attempt + 1)
      else convertGo backend fuel (attempt + 1)
    | .malformed =>
      if attempt < max_retries - 1 then convertGo backend fuel (attempt + 1)
      else (none, attempt + 1)
    | .exnCall =>
      if attempt < max_retries - 1 then convertGo backend fuel (attempt + 1)
      else (none, attempt + 1)

/-- The retry loop from a given attempt index: `for attempt in
range(max_retries)` starting at `attempt` leaves `max_retries - attempt`
iterations. -/
def convertFrom (backend : Nat → BackendResp) (attempt : Nat) : Option PyVal × Nat :=
  convertGo backend (max_retries - attempt) attempt

/-- `convert_to_emojipasta(article_text, original_title)` (main.py:201-305):
raises `ValueError` when `XAI_API_KEY` is unset or empty (main.py:206-208),
otherwise runs the retry loop and returns its value. -/
def convert_to_emojipasta (api_key : Option String) (backend : Nat → BackendResp) :
    PyResult (Option PyVal) :=
  if truthyOpt api_key then .ok (convertFrom backend 0).1
  else .exn "ValueError: XAI_API_KEY environment variable is not set"

/-- Number of backend calls `convert_to_emojipasta` makes (one per attempt). -/
def convertCallCount (backend : Nat → BackendResp) : Nat :=
  (convertFrom backend 0).2

/-! ## Thumbnail Generator (`generate_and_save_image`, main.py:327-385) -/

/-- The body of the JPEG re-encoding loop (main.py:365-373) with an explicit
structural fuel. `encode q` is the external PIL
`img.save(buffer, format="JPEG", quality=q)` output for the decoded image,
as a byte list. Mirrors
`while len(data) > 1_000_000 and quality >= 30: quality -= 5; re-encode`;
returns the final quality and bytes. Each iteration requires `30 ≤ quality`
and lowers `quality` by 5 while spending one unit of fuel, so any fuel with
`quality ≤ 5 * fuel + 25` never runs out before the loop condition fails;
`shrinkLoop` instantiates it with `fuel = quality`. -/
def shrinkGo (encode : Nat → List Nat) : Nat → Nat → List Nat → Nat × List Nat
  | 0, quality, data => (quality, data)
  | fuel + 1, quality, data =>
    if 1000000 < data.length ∧ 30 ≤ quality then
      shrinkGo encode fuel (quality - 5) (encode (quality - 5))
    else (quality, data)

/-- The re-encoding loop from a starting quality and encoding. -/
def shrinkLoop (encode : Nat → List Nat) (quality : Nat) (data : List Nat) :
    Nat × List Nat :=
  shrinkGo encode quality quality data

/-- The whole re-encoding phase: first encode at quality 100
(main.py:366-368), then run the loop. -/
def fit_image (encode : Nat → List Nat) : List Nat :=
  (shrinkLoop encode 100 (encode 100)).2

/-- The qualities the loop can visit starting from `quality`, with the same
fuel discipline as `shrinkGo`. -/
def qualGo : Nat → Nat → List Nat
  | 0, quality => [quality]
  | fuel + 1, quality =>
    if 30 ≤ quality then quality :: qualGo fuel (quality - 5) else [quality]

/-- The qualities the loop can visit starting from `quality`:
`quality, quality - 5, ...` down to the first value below the floor check
(from 100: `100, 95, ..., 30, 25`). -/
def qualSched (quality : Nat) : List Nat := qualGo quality quality

/-- `generate_and_save_image` (main.py:327-385): returns `none` when the API
key is falsy (main.py:333-336) or when anything in the `try` block raises —
backend unreachable, backend error, undecodable image bytes, file write
failure — all folded into `sampled = .exn` (main.py:383-385). On success the
external backend + `Image.open(...).convert("RGB")` step yields the decoded
image, represented by its JPEG encoder `encode`; the loop output is written
and the thumbnail filename returned (main.py:375-382). -/
def generate_and_save_image (api_key : Option String)
    (sampled : PyResult (Nat → List Nat)) (original_title timestamp_str : String) :
    Option String :=
  if truthyOpt api_key then
    match sampled with
    | .exn _ => none
    | .ok encode =>
      let _data := fit_image encode
      some (NEWS_THUMBNAILS_DIR ++ "/" ++ timestamp_str ++ "_" ++
            sanitize original_title ++ ".jpg")
  else none

/-! ## Record Store and Pipeline Coordinator (main.py:159-199, 308-324, 388-443) -/

/-- The JSON filename `save_emojipasta_json` writes to (main.py:312-319). -/
def save_emojipasta_json_filename (original_title timestamp_str : String) : String :=
  NEWS_OUTPUT_DIR ++ "/" ++ timestamp_str ++ "_" ++ sanitize original_title ++ ".json"

/-- An article as produced by `fetch_news_articles` and consumed by
`process_single_article` (only the fields the coordinator reads). -/
structure Article where
  title : String
  content : String
  article_id : Option String
  deriving Repr, DecidableEq

/-- The dedup token computation of main.py:168-170: a token is computed only
when both the raw article id and the hash key are truthy. -/
def dedupToken (sha : String → String) (article_data : Article) (hash_key : String) :
    Option String :=
  match article_data.article_id with
  | some raw =>
    if truthyStr raw && truthyStr hash_key then
      some (hash_article_id sha raw hash_key)
    else none
  | none => none

/-- `process_single_article(article_data, hash_key, known_hashes, hashes_lock)`
(main.py:159-199), with the external effects passed in explicitly:
`sha` the digest primitive, `api_key` the `XAI_API_KEY` value, `backend` the
text-backend responses per attempt, `imageSample` the image-backend/decoding
outcome, `saveOk` whether the JSON file write succeeds, `now_str`/
`timestamp_str` the renderings of `datetime.now(timezone.utc)`.

Returns `(outcome, known_hashes, written records)` where `outcome` is the
Python return value (`some filename`, `none` on a duplicate skip) or a
propagated exception. Mirrors the source exactly:
* the dedup token is computed only when both the raw id and the key are
  truthy (main.py:168-170);
* the membership check runs under the lock and a present token returns
  `None` at once (main.py:171-174);
* the transformed dict gains `article_id` (when hashed), `date`, then
  `image` via `os.path.basename(image_filename)` — which raises `TypeError`
  when image generation returned `None` (main.py:181-189), as does any item
  assignment when the transform returned `None` or a bare string;
* the record is written (main.py:192) before the token is inserted under the
  lock (main.py:194-196). -/
def process_single_article (sha : String → String) (api_key : Option String)
    (backend : Nat → BackendResp) (imageSample : PyResult (Nat → List Nat))
    (saveOk : Bool) (now_str timestamp_str : String)
    (article_data : Article) (hash_key : String) (known_hashes : List String) :
    PyResult (Option String) × List String × List Dict :=
  let original_title := article_data.title
  let hashed_id : Option String := dedupToken sha article_data hash_key
  let isDup : Bool :=
    match hashed_id with
    | some h => decide (h ∈ known_hashes)
    | none => false
  if isDup then (.ok none, known_hashes, [])
  else
    match convert_to_emojipasta api_key backend with
    | .exn e => (.exn e, known_hashes, [])
    | .ok none =>
      (.exn "TypeError: NoneType object does not support item assignment",
       known_hashes, [])
    | .ok (some (.strVal _)) =>
      (.exn "TypeError: str object does not support item assignment",
       known_hashes, [])
    | .ok (some (.obj d0)) =>
      let d1 := match hashed_id with
        | some h => dictSet d0 "article_id" h
        | none => d0
      let d2 := dictSet d1 "date" now_str
      match generate_and_save_image api_key imageSample original_title timestamp_str with
      | none =>
        (.exn "TypeError: expected str, bytes or os.PathLike object, not NoneType",
         known_hashes, [])
      | some image_filename =>
        let d3 := dictSet d2 "image" (basename image_filename)
        if saveOk then
          let filename := save_emojipasta_json_filename original_title timestamp_str
          let known := match hashed_id with
            | some h => insertToken known_hashes h
            | none => known_hashes
          (.ok (some filename), known, [d3])
        else (.exn "OSError: JSON write failed", known_hashes, [])

/-- Per-article external inputs for one run of the pipeline. -/
structure Job where
  article : Article
  backend : Nat → BackendResp
  imageSample : PyResult (Nat → List Nat)
  saveOk : Bool
  now_str : String
  ts_str : String

/-- The dispatch loop of `main` (main.py:409-423): every article is
processed, the shared hash set is threaded through, each worker exception is
caught at the `as_completed` boundary (recorded, siblings keep running).
Returns the per-article outcomes, the final hash set, and all JSON records
written. This serialisation is one interleaving of the thread pool; the
interleaved semantics of the shared set is modelled separately below. -/
def runJobs (sha : String → String) (api_key : Option String) (hash_key : String)
    (jobs : List Job) (known_hashes : List String) :
    List (PyResult (Option String)) × List String × List Dict :=
  match jobs with
  | [] => ([], known_hashes, [])
  | j :: rest =>
    let step := process_single_article sha api_key j.backend j.imageSample j.saveOk
      j.now_str j.ts_str j.article hash_key known_hashes
    let further := runJobs sha api_key hash_key rest step.2.1
    (step.1 :: further.1, further.2.1, step.2.2 ++ further.2.2)

/-- One run of `main` (main.py:388-443) over a store of already-persisted
parsed JSON records: resolve the hash key (main.py:391-394), load the recent
hashes (main.py:396), process the fetched articles, and append the written
records to the store. Returns the outcomes and the new store. -/
def runPipeline (sha : String → String) (api_key : Option String)
    (parseIso : String → Option Int) (now : Int) (env_hash_key : Option String)
    (jobs : List Job) (store : List Dict) :
    List (PyResult (Option String)) × List Dict :=
  let hash_key := resolve_hash_key env_hash_key
  let recent := load_recent_article_hashes parseIso now 7 store
  let r := runJobs sha api_key hash_key jobs recent
  (r.1, store ++ r.2.2)

/-! ## Interleaved semantics of the shared dedup set (main.py:171-174, 194-196)

Each worker touches the shared set in exactly two lock-guarded critical
sections: the membership check (main.py:171-174) and, after the whole
transform/image/persist phase, the insertion (main.py:194-196). Each section
is atomic (the `with hashes_lock:` block), but nothing makes the pair
atomic: any interleaving of the per-worker `check` and `insert` events is a
possible thread-pool execution. -/

/-- Status of a worker with respect to the shared set. -/
inductive WStatus where
  | pending
  | working
  | accepted
  | skipped
  deriving Repr, DecidableEq

/-- A worker processing one article whose dedup token is `token`. -/
structure Worker where
  token : String
  status : WStatus
  deriving Repr, DecidableEq

/-- An atomic event on the shared set: worker `i` runs its lock-guarded
membership check, or its lock-guarded insertion. -/
inductive Ev where
  | check (i : Nat)
  | insert (i : Nat)
  deriving Repr, DecidableEq

/-- Global state: the workers and the shared hash set. -/
abbrev SchedState := List Worker × List String

/-- One atomic event. `check i` (main.py:171-174): a pending worker that
finds its token present skips, otherwise it starts working. `insert i`
(main.py:194-196): a working worker adds its token and is accepted. Events
that do not match the worker's phase have no effect. -/
def stepEv (s : SchedState) (e : Ev) : SchedState :=
  match e with
  | .check i =>
    match s.1.get? i with
    | some w =>
      if w.status = .pending then
        if w.token ∈ s.2 then (s.1.set i { w with status := .skipped }, s.2)
        else (s.1.set i { w with status := .working }, s.2)
      else s
    | none => s
  | .insert i =>
    match s.1.get? i with
    | some w =>
      if w.status = .working then
        (s.1.set i { w with status := .accepted }, insertToken s.2 w.token)
      else s
    | none => s

/-- Run a schedule of atomic events from an initial state. -/
def runSched (ws : List Worker) (hs : List String) (evs : List Ev) : SchedState :=
  evs.foldl stepEv (ws, hs)

/-- Count the workers with a given status. -/
def countStatus (ws : List Worker) (st : WStatus) : Nat :=
  (ws.filter (fun w => w.status = st)).length

/-! ## Derived checks and concrete fixtures -/

/-- The shape guarantee the engine actually enforces on a returned value:
objects must have both keys, bare strings both substrings (values are never
inspected further). -/
def returnedValid : PyVal → Bool
  | .obj d => (dictGet d "headline").isSome && (dictGet d "text").isSome
  | .strVal s => strContains s "headline" && strContains s "text"

/-- Stand-in for the external SHA-256 hex digest in closed instantiations
(the development is parametric in the digest; the identity keeps tokens
readable). -/
def shaStub : String → String := fun s => s

/-- Stand-in ISO parser: every date parses to time 0. -/
def parseIsoStub : String → Option Int := fun _ => some 0

/-- A compliant text backend: always a valid `headline`/`text` object. -/
def backendGood : Nat → BackendResp := fun _ => .obj [("headline", "H"), ("text", "T")]

/-- A text backend whose every response is undecodable JSON. -/
def backendAllBad : Nat → BackendResp := fun _ => .malformed

/-- A text backend answering a JSON object with both keys but empty values. -/
def backendEmptyFields : Nat → BackendResp :=
  fun _ => .obj [("headline", ""), ("text", "")]

/-- A text backend: invalid JSON on the first two calls, valid on the third. -/
def backendThirdTry : Nat → BackendResp :=
  fun n => if n < 2 then .malformed else .obj [("headline", "H"), ("text", "T")]

/-- Stand-in JPEG encoder producing a single byte at every quality. -/
def encodeStub : Nat → List Nat := fun _ => [0]

/-- The spec's end-to-end fixture: feed item with id `abc123`, title
`Test Event`, everything downstream succeeding. -/
def jobTestEvent : Job :=
  { article := { title := "Test Event", content := "content", article_id := some "abc123" }
    backend := backendGood
    imageSample := .ok encodeStub
    saveOk := true
    now_str := "2026-01-01 00:00:00+00:00"
    ts_str := "20260101_000000" }

/-- The JSON record the pipeline writes for `jobTestEvent` with secret `k`
under `shaStub`: note the token sits under key `article_id`. -/
def recTestEvent : Dict :=
  [("headline", "H"), ("text", "T"), ("article_id", "k:abc123"),
   ("date", "2026-01-01 00:00:00+00:00"),
   ("image", "20260101_000000_Test_Event.jpg")]

/-- The record written for the same fixture when no hash key is configured:
the token is still computed, with the demo fallback key. -/
def recTestEventDemo : Dict :=
  [("headline", "H"), ("text", "T"),
   ("article_id", "demo-secret-change-me-041f6a73:abc123"),
   ("date", "2026-01-01 00:00:00+00:00"),
   ("image", "20260101_000000_Test_Event.jpg")]

/-- A job whose text backend never produces valid output. -/
def badJob : Job :=
  { article := { title := "Doomed", content := "content", article_id := some "zzz" }
    backend := backendAllBad
    imageSample := .ok encodeStub
    saveOk := true
    now_str := "2026-01-01 00:00:00+00:00"
    ts_str := "20260101_000001" }

/-- Two workers racing on the same token `t`. -/
def twoWorkers : List Worker := [⟨"t", .pending⟩, ⟨"t", .pending⟩]

/-- The interleaving check-check-insert-insert: both workers pass their
membership check before either inserts. -/
def raceSchedule : List Ev := [.check 0, .check 1, .insert 0, .insert 1]

/-! ## Lemmas about the retry loop -/

theorem convertFrom_exhausted (backend : Nat → BackendResp) (a : Nat)
    (ha : max_retries ≤ a) : convertFrom backend a = (none, a) := by
  unfold convertFrom
  rw [Nat.sub_eq_zero_of_le ha]
  rfl

theorem convertFrom_invalid (backend : Nat → BackendResp) (a : Nat)
    (ha : a < max_retries) (hinv : validResp (backend a) = false) :
    convertFrom backend a = convertFrom backend (a + 1) := by
  unfold convertFrom
  have hf : max_retries - a = (max_retries - (a + 1)) + 1 := by omega
  rw [hf, convertGo]
  rcases hb : backend a with _ | _ | d | s
  · by_cases h2 : a < max_retries - 1
    · simp [h2]
    · have hk : max_retries - (a + 1) = 0 := by omega
      rw [hk]
      simp [h2, convertGo]
  · by_cases h2 : a < max_retries - 1
    · simp [h2]
    · have hk : max_retries - (a + 1) = 0 := by omega
      rw [hk]
      simp [h2, convertGo]
  · rw [hb] at hinv
    simp only [validResp] at hinv
    simp [hinv]
  · rw [hb] at hinv
    simp only [validResp] at hinv
    simp [hinv]

theorem convertFrom_validAt (backend : Nat → BackendResp) (a : Nat)
    (ha : a < max_retries) (hval : validResp (backend a) = true) :
    convertFrom backend a = (respPayload (backend a), a + 1) := by
  unfold convertFrom
  have hf : max_retries - a = (max_retries - (a + 1)) + 1 := by omega
  rw [hf, convertGo]
  rcases hb : backend a with _ | _ | d | s
  · rw [hb] at hval
    simp [validResp] at hval
  · rw [hb] at hval
    simp [validResp] at hval
  · rw [hb] at hval
    simp only [validResp, Bool.and_eq_true] at hval
    simp [respPayload, hval.1, hval.2]
  · rw [hb] at hval
    simp only [validResp, Bool.and_eq_true] at hval
    simp [respPayload, hval.1, hval.2]

theorem convertFrom_allInvalid (backend : Nat → BackendResp)
    (hinv : ∀ j, j < max_retries → validResp (backend j) = false) :
    convertFrom backend 0 = (none, max_retries) := by
  rw [convertFrom_invalid backend 0 (by decide) (hinv 0 (by decide)),
      convertFrom_invalid backend 1 (by decide) (hinv 1 (by decide)),
      convertFrom_invalid backend 2 (by decide) (hinv 2 (by decide)),
      convertFrom_exhausted backend 3 (by decide)]
  rfl

theorem respPayload_valid (resp : BackendResp) (r : PyVal)
    (hv : validResp resp = true) (hp : respPayload resp = some r) :
    returnedValid r = true := by
  rcases resp with _ | _ | d | s
  · simp [validResp] at hv
  · simp [validResp] at hv
  · simp only [respPayload, Option.some.injEq] at hp
    rw [← hp]
    simpa [validResp, returnedValid] using hv
  · simp only [respPayload, Option.some.injEq] at hp
    rw [← hp]
    simpa [validResp, returnedValid] using hv

/-- C5. The claim says that when every backend attempt yields structurally
invalid output, the Transform Engine signals `TransformationFailed` to its
caller rather than completing with some other value. In the source the loop
exhausted its budget and the function falls off the end (main.py:289-305):
it completes normally and returns Python `None` — the `PyResult.ok`
constructor, not a raised exception. A backend that always returns
undecodable JSON exhibits it. -/
theorem C5_counterexample_completes_with_none :
    convert_to_emojipasta (some "key") backendAllBad = .ok none := rfl

theorem convert_exhaustion_none (api_key : Option String)
    (backend : Nat → BackendResp) (hkey : truthyOpt api_key = true)
    (hinv : ∀ j, j < max_retries → validResp (backend j) = false) :
    convert_to_emojipasta api_key backend = .ok none := by
  unfold convert_to_emojipasta
  rw [convertFrom_allInvalid backend hinv]
  simp [hkey]

/-- C5 (amended): after every attempt within the budget yields structurally
invalid output, `convert_to_emojipasta` completes normally and returns no
result (Python `None`); there is no dedicated `TransformationFailed` signal —
the caller's unguarded use of the `None` result is what later raises. -/
theorem C5_amended_exhaustion_returns_none (api_key : Option String)
    (backend : Nat → BackendResp) (hkey : truthyOpt api_key = true)
    (hinv : ∀ j, j < max_retries → validResp (backend j) = false) :
    convert_to_emojipasta api_key backend = .ok none :=
  convert_exhaustion_none api_key backend hkey hinv

theorem C5_amended_exhaustion_returns_none_witness :
    truthyOpt (some "key") = true
    ∧ (∀ j, j < max_retries → validResp (backendAllBad j) = false)
    ∧ convert_to_emojipasta (some "key") backendAllBad = .ok none :=
  ⟨by decide, fun j _ => by simp [backendAllBad, validResp],
   C5_amended_exhaustion_returns_none (some "key") backendAllBad (by decide)
     (fun j _ => by simp [backendAllBad, validResp])⟩

/-- C7. The claim says every returned Transformation Result has `headline`
and `text` present as non-empty strings, and anything else is discarded. The
source check (main.py:283) is Python `"headline" in result and "text" in
result`: key presence only. A backend answering the JSON object with both
keys but empty-string values is returned to the caller unchanged, violating
non-emptiness. -/
theorem C7_counterexample_empty_fields_returned :
    convert_to_emojipasta (some "key") backendEmptyFields
      = .ok (some (.obj [("headline", ""), ("text", "")])) := rfl

/-- C7 (amended): the engine checks only Python `in` membership: a returned
object has both keys present (values unchecked, possibly empty), and a bare
JSON string passes whenever it merely contains both field names as
substrings; nothing stronger is ever enforced on a returned result. -/
theorem C7_amended_presence_only (api_key : Option String)
    (backend : Nat → BackendResp) (r : PyVal)
    (h : convert_to_emojipasta api_key backend = .ok (some r)) :
    returnedValid r = true := by
  unfold convert_to_emojipasta at h
  by_cases hk : truthyOpt api_key = true
  · rw [hk] at h
    simp only [if_true, PyResult.ok.injEq] at h
    have step : ∀ fuel a, max_retries - a = fuel → a < max_retries →
        (convertFrom backend a).1 = some r → returnedValid r = true := by
      intro fuel
      induction fuel with
      | zero =>
        intro a hfa ha _
        omega
      | succ n ihn =>
        intro a hfa ha hsome
        by_cases hv : validResp (backend a) = true
        · rw [convertFrom_validAt backend a ha hv] at hsome
          exact respPayload_valid (backend a) r hv hsome
        · rw [convertFrom_invalid backend a ha (by simpa using hv)] at hsome
          by_cases ha1 : a + 1 < max_retries
          · exact ihn (a + 1) (by omega) ha1 hsome
          · rw [convertFrom_exhausted backend (a + 1) (by omega)] at hsome
            simp at hsome
    exact step max_retries 0 rfl (by decide) h
  · have hk' : truthyOpt api_key = false := by simpa using hk
    rw [hk'] at h
    simp at h

theorem C7_amended_presence_only_witness :
    convert_to_emojipasta (some "key") backendEmptyFields
        = .ok (some (.obj [("headline", ""), ("text", "")]))
    ∧ returnedValid (.obj [("headline", ""), ("text", "")]) = true :=
  ⟨rfl, C7_amended_presence_only (some "key") backendEmptyFields
    (.obj [("headline", ""), ("text", "")]) rfl⟩

/-- C8: the engine makes exactly one backend call per attempt and stops at
the first structurally valid response: if the first valid response is
attempt `k+1` (0-indexed `k`) within the budget, it returns that payload
after exactly `k+1` calls; if no attempt is valid it makes exactly
`max_retries` calls and no more. (`convertFrom backend 0` is the pair of the
returned value and the number of calls made.) -/
theorem C8_one_call_per_attempt_stops_at_first_valid (backend : Nat → BackendResp) :
    (∀ k, k < max_retries → (∀ j, j < k → validResp (backend j) = false) →
      validResp (backend k) = true →
      convertFrom backend 0 = (respPayload (backend k), k + 1))
    ∧ ((∀ j, j < max_retries → validResp (backend j) = false) →
      convertFrom backend 0 = (none, max_retries)) := by
  constructor
  · intro k hk hbefore hval
    have hk3 : k < 3 := hk
    interval_cases k
    · exact convertFrom_validAt backend 0 (by decide) hval
    · rw [convertFrom_invalid backend 0 (by decide) (hbefore 0 (by decide))]
      exact convertFrom_validAt backend 1 (by decide) hval
    · rw [convertFrom_invalid backend 0 (by decide) (hbefore 0 (by decide)),
          convertFrom_invalid backend 1 (by decide) (hbefore 1 (by decide))]
      exact convertFrom_validAt backend 2 (by decide) hval
  · exact convertFrom_allInvalid backend

theorem C8_one_call_per_attempt_stops_at_first_valid_witness :
    (∀ j, j < 2 → validResp (backendThirdTry j) = false)
    ∧ validResp (backendThirdTry 2) = true
    ∧ convertFrom backendThirdTry 0
        = (some (.obj [("headline", "H"), ("text", "T")]), 3)
    ∧ (∀ j, j < max_retries → validResp (backendAllBad j) = false)
    ∧ convertFrom backendAllBad 0 = (none, max_retries) := by
  refine ⟨?_, by decide, ?_, ?_, ?_⟩
  · intro j hj
    interval_cases j <;> decide
  · have h := (C8_one_call_per_attempt_stops_at_first_valid backendThirdTry).1 2
      (by decide) (fun j hj => by interval_cases j <;> decide) (by decide)
    simpa [backendThirdTry, respPayload] using h
  · intro j _; simp [backendAllBad, validResp]
  · exact (C8_one_call_per_attempt_stops_at_first_valid backendAllBad).2
      (fun j _ => by simp [backendAllBad, validResp])

/-! ## Lemmas about the coordinator -/

theorem mem_insertToken (s : List String) (t : String) : t ∈ insertToken s t := by
  unfold insertToken
  by_cases hm : t ∈ s
  · simp [hm]
  · simp [hm]

theorem process_skip (sha : String → String) (api_key : Option String)
    (backend : Nat → BackendResp) (imageSample : PyResult (Nat → List Nat))
    (saveOk : Bool) (now_str ts : String) (article : Article) (hash_key : String)
    (known : List String) (h : String)
    (htok : dedupToken sha article hash_key = some h) (hmem : h ∈ known) :
    process_single_article sha api_key backend imageSample saveOk now_str ts
      article hash_key known = (.ok none, known, []) := by
  unfold process_single_article
  simp [htok, hmem]

theorem process_success (sha : String → String) (api_key : Option String)
    (backend : Nat → BackendResp) (imageSample : PyResult (Nat → List Nat))
    (saveOk : Bool) (now_str ts : String) (article : Article) (hash_key : String)
    (known : List String) (h f : String) (d : Dict)
    (htok : dedupToken sha article hash_key = some h) (hmem : h ∉ known)
    (hconv : convert_to_emojipasta api_key backend = .ok (some (.obj d)))
    (himg : generate_and_save_image api_key imageSample article.title ts = some f)
    (hsave : saveOk = true) :
    process_single_article sha api_key backend imageSample saveOk now_str ts
      article hash_key known
      = (.ok (some (save_emojipasta_json_filename article.title ts)),
         insertToken known h,
         [dictSet (dictSet (dictSet d "article_id" h) "date" now_str)
            "image" (basename f)]) := by
  unfold process_single_article
  simp [htok, hmem, hconv, himg, hsave]

theorem process_transform_none (sha : String → String) (api_key : Option String)
    (backend : Nat → BackendResp) (imageSample : PyResult (Nat → List Nat))
    (saveOk : Bool) (now_str ts : String) (article : Article) (hash_key : String)
    (known : List String)
    (hconv : convert_to_emojipasta api_key backend = .ok none)
    (hnd : ∀ h, dedupToken sha article hash_key = some h → h ∉ known) :
    process_single_article sha api_key backend imageSample saveOk now_str ts
      article hash_key known
      = (.exn "TypeError: NoneType object does not support item assignment",
         known, []) := by
  unfold process_single_article
  rcases htok : dedupToken sha article hash_key with _ | h
  · simp [htok, hconv]
  · simp [htok, hnd h htok, hconv]

theorem process_state_preserving (sha : String → String) (api_key : Option String)
    (backend : Nat → BackendResp) (imageSample : PyResult (Nat → List Nat))
    (saveOk : Bool) (now_str ts : String) (article : Article) (hash_key : String)
    (known : List String)
    (hconv : convert_to_emojipasta api_key backend = .ok none) :
    (process_single_article sha api_key backend imageSample saveOk now_str ts
      article hash_key known).2 = (known, []) := by
  unfold process_single_article
  rcases htok : dedupToken sha article hash_key with _ | h
  · simp [htok, hconv]
  · by_cases hmem : h ∈ known
    · simp [htok, hmem]
    · simp [htok, hmem, hconv]

theorem runJobs_cons (sha : String → String) (api_key : Option String)
    (hash_key : String) (j : Job) (rest : List Job) (known : List String) :
    runJobs sha api_key hash_key (j :: rest) known
      = ((process_single_article sha api_key j.backend j.imageSample j.saveOk
            j.now_str j.ts_str j.article hash_key known).1
           :: (runJobs sha api_key hash_key rest
                (process_single_article sha api_key j.backend j.imageSample j.saveOk
                  j.now_str j.ts_str j.article hash_key known).2.1).1,
         (runJobs sha api_key hash_key rest
           (process_single_article sha api_key j.backend j.imageSample j.saveOk
             j.now_str j.ts_str j.article hash_key known).2.1).2.1,
         (process_single_article sha api_key j.backend j.imageSample j.saveOk
           j.now_str j.ts_str j.article hash_key known).2.2
           ++ (runJobs sha api_key hash_key rest
                (process_single_article sha api_key j.backend j.imageSample j.saveOk
                  j.now_str j.ts_str j.article hash_key known).2.1).2.2) := rfl

theorem runJobs_append (sha : String → String) (api_key : Option String)
    (hash_key : String) (xs ys : List Job) (known : List String) :
    runJobs sha api_key hash_key (xs ++ ys) known
      = ((runJobs sha api_key hash_key xs known).1
           ++ (runJobs sha api_key hash_key ys
                (runJobs sha api_key hash_key xs known).2.1).1,
         (runJobs sha api_key hash_key ys
           (runJobs sha api_key hash_key xs known).2.1).2.1,
         (runJobs sha api_key hash_key xs known).2.2
           ++ (runJobs sha api_key hash_key ys
                (runJobs sha api_key hash_key xs known).2.1).2.2) := by
  induction xs generalizing known with
  | nil => simp [runJobs]
  | cons j rest ih =>
    simp only [List.cons_append, runJobs_cons, ih, List.append_assoc]

/-- C1. The spec claims the end-to-end dedup round trip: with one feed item
(id `abc123`, title `Test Event`), no prior records and secret `k`, the
pipeline persists one record holding the token under the dedup-token field,
and a second identical run within the retention window loads that token and
skips the article, writing zero new records. In the source the writer stores
the token under JSON key `article_id` (main.py:182) while the loader reads
key `article_hash` (main.py:51), so the second run loads nothing and writes
a second record. This theorem evaluates both runs (`shaStub` standing in for
the external digest; the mismatch is independent of it): the first run
writes `recTestEvent`, whose `article_hash` key is absent, the reload yields
the empty token set, and the second run writes a new record instead of
skipping. -/
theorem C1_roundtrip_broken_field_mismatch :
    (runPipeline shaStub (some "x") parseIsoStub 0 (some "k") [jobTestEvent] []).2
      = [recTestEvent]
    ∧ dictGet recTestEvent "article_id" = some (hash_article_id shaStub "abc123" "k")
    ∧ dictGet recTestEvent "article_hash" = none
    ∧ load_recent_article_hashes parseIsoStub 0 7 [recTestEvent] = []
    ∧ (runPipeline shaStub (some "x") parseIsoStub 0 (some "k") [jobTestEvent]
        [recTestEvent]).1 = [.ok (some (save_emojipasta_json_filename "Test Event" "20260101_000000"))]
    ∧ (runPipeline shaStub (some "x") parseIsoStub 0 (some "k") [jobTestEvent]
        [recTestEvent]).2 = [recTestEvent, recTestEvent] := by
  refine ⟨rfl, rfl, rfl, rfl, rfl, rfl⟩

/-- C2. The spec claims image-generation failure is non-fatal: the JSON
record is still persisted, with no image field or an empty one. In the
source `generate_and_save_image` deliberately returns `None` on failure
(main.py:383-385), but the caller immediately evaluates
`os.path.basename(image_filename)` (main.py:189), which raises `TypeError`
on `None`; the worker dies and no JSON record is written. Evaluated here at
an article whose transformation succeeds and whose image backend is
unreachable: the outcome is the raised `TypeError`, the hash set is
untouched, and no record is written. -/
theorem C2_image_failure_is_fatal :
    process_single_article shaStub (some "x") backendGood (.exn "backend unreachable")
      true "2026-01-01 00:00:00+00:00" "20260101_000000"
      { title := "Test Event", content := "content", article_id := some "abc123" }
      "k" []
      = (.exn "TypeError: expected str, bytes or os.PathLike object, not NoneType",
         [], []) := rfl

/-- Skipping is stable: once the token is present, any number of repeats of
the same job are all skipped with no writes and no set change
(main.py:171-174). -/
theorem runJobs_skip_replicate (sha : String → String) (api_key : Option String)
    (hash_key : String) (j0 : Job) (n : Nat) (s : List String) (h : String)
    (htok : dedupToken sha j0.article hash_key = some h) (hmem : h ∈ s) :
    runJobs sha api_key hash_key (List.replicate n j0) s
      = (List.replicate n (.ok none), s, []) := by
  induction n with
  | zero => simp [runJobs]
  | succ n ih =>
    rw [List.replicate_succ, runJobs_cons,
        process_skip sha api_key j0.backend j0.imageSample j0.saveOk j0.now_str
          j0.ts_str j0.article hash_key s h htok hmem]
    simp [ih, List.replicate_succ]

/-- C3. The claim says the duplicate check and the token insertion form one
indivisible operation, so that N concurrent workers submitting the same
token yield exactly one acceptance and N−1 duplicate signals. In the source
they are two separate lock acquisitions (main.py:171-174 and 194-196) with
the whole transform/image/persist phase between them. In the interleaved
semantics of those two atomic sections, the schedule check-check-insert-
insert lets two workers with the same token both pass the membership check
before either inserts: both end accepted, refuting both the indivisibility
and the exactly-one-acceptance property. -/
theorem C3_counterexample_both_accepted :
    (runSched twoWorkers [] raceSchedule).1
      = [{ token := "t", status := .accepted }, { token := "t", status := .accepted }]
    ∧ countStatus (runSched twoWorkers [] raceSchedule).1 .accepted = 2
    ∧ countStatus (runSched twoWorkers [] raceSchedule).1 .skipped = 0 :=
  ⟨rfl, rfl, rfl⟩

/-- C3 (amended): the check and the insertion are each individually atomic
(each runs under the lock) but not jointly: the token is inserted only after
the article is fully processed, so concurrent workers on the same token can
all be accepted. What the code does guarantee is the serial version: a
worker that finds the token present is told duplicate and skips, one that
finds it absent proceeds and inserts after persisting, and N same-token
workers run one after another produce exactly one acceptance (the first)
and N−1 duplicate skips with exactly one record written. -/
theorem C3_amended_serial_one_acceptance (sha : String → String)
    (api_key : Option String) (hash_key : String) (j0 : Job) (n : Nat)
    (known : List String) (h f : String) (d : Dict)
    (htok : dedupToken sha j0.article hash_key = some h) (hmem : h ∉ known)
    (hconv : convert_to_emojipasta api_key j0.backend = .ok (some (.obj d)))
    (himg : generate_and_save_image api_key j0.imageSample j0.article.title j0.ts_str
      = some f)
    (hsave : j0.saveOk = true) :
    runJobs sha api_key hash_key (List.replicate (n + 1) j0) known
      = (.ok (some (save_emojipasta_json_filename j0.article.title j0.ts_str))
           :: List.replicate n (.ok none),
         insertToken known h,
         [dictSet (dictSet (dictSet d "article_id" h) "date" j0.now_str)
            "image" (basename f)]) := by
  rw [List.replicate_succ, runJobs_cons,
      process_success sha api_key j0.backend j0.imageSample j0.saveOk j0.now_str
        j0.ts_str j0.article hash_key known h f d htok hmem hconv himg hsave,
      runJobs_skip_replicate sha api_key hash_key j0 n (insertToken known h) h htok
        (mem_insertToken known h)]
  rfl

theorem C3_amended_serial_one_acceptance_witness :
    dedupToken shaStub jobTestEvent.article "k" = some "k:abc123"
    ∧ "k:abc123" ∉ ([] : List String)
    ∧ runJobs shaStub (some "x") "k" (List.replicate 3 jobTestEvent) []
        = (.ok (some (save_emojipasta_json_filename "Test Event" "20260101_000000"))
             :: List.replicate 2 (.ok none),
           insertToken [] "k:abc123",
           [recTestEvent]) :=
  ⟨rfl, by simp,
   C3_amended_serial_one_acceptance shaStub (some "x") "k" jobTestEvent 2 []
     "k:abc123" "../frontend/public/thumbnails/20260101_000000_Test_Event.jpg"
     [("headline", "H"), ("text", "T")] rfl (by simp) rfl rfl rfl⟩

/-- C4. The claim says that with no identity-hashing secret configured the
run does not fail and deduplication is disabled: no token is computed and
every fetched article is processed. In the source (main.py:391-394) a
missing key is replaced by the hard-coded demo key, so tokens are still
computed and dedup stays active. Evaluated here: the resolved key is the
demo key; the run on an empty store computes and persists a token derived
from the demo key (so a token IS computed); and a run whose prior store
already holds that demo-keyed token skips the article (so not every fetched
article is processed). -/
theorem C4_counterexample_demo_key_dedup_active :
    resolve_hash_key none = demo_hash_key
    ∧ (runPipeline shaStub (some "x") parseIsoStub 0 none [jobTestEvent] []).2
        = [recTestEventDemo]
    ∧ dictGet recTestEventDemo "article_id"
        = some (hash_article_id shaStub "abc123" demo_hash_key)
    ∧ process_single_article shaStub (some "x") backendGood (.ok encodeStub) true
        "2026-01-01 00:00:00+00:00" "20260101_000000"
        { title := "Test Event", content := "content", article_id := some "abc123" }
        (resolve_hash_key none)
        [hash_article_id shaStub "abc123" demo_hash_key]
      = (.ok none, [hash_article_id shaStub "abc123" demo_hash_key], []) :=
  ⟨rfl, rfl, rfl, rfl⟩

/-- C4 (amended): when no identity-hashing secret is configured the run does
not fail, but deduplication is not disabled: the hard-coded demo key is
substituted, it is truthy, and for every article with a truthy raw id the
dedup token is still computed — as the keyed hash under the demo key — so
articles can still be skipped as duplicates. -/
theorem C4_amended_demo_key_fallback (sha : String → String) (article : Article)
    (raw : String) (hid : article.article_id = some raw)
    (hraw : truthyStr raw = true) :
    resolve_hash_key none = demo_hash_key
    ∧ truthyStr (resolve_hash_key none) = true
    ∧ dedupToken sha article (resolve_hash_key none)
        = some (hash_article_id sha raw demo_hash_key) := by
  refine ⟨rfl, by decide, ?_⟩
  have hne : raw ≠ "" := by simpa [truthyStr] using hraw
  unfold dedupToken
  rw [hid]
  simp [hne, resolve_hash_key, demo_hash_key, truthyStr]

theorem C4_amended_demo_key_fallback_witness :
    ({ title := "Test Event", content := "content",
       article_id := some "abc123" } : Article).article_id = some "abc123"
    ∧ truthyStr "abc123" = true
    ∧ (resolve_hash_key none = demo_hash_key
       ∧ truthyStr (resolve_hash_key none) = true
       ∧ dedupToken shaStub
           { title := "Test Event", content := "content", article_id := some "abc123" }
           (resolve_hash_key none)
         = some (hash_article_id shaStub "abc123" demo_hash_key)) :=
  ⟨rfl, by decide,
   C4_amended_demo_key_fallback shaStub
     { title := "Test Event", content := "content", article_id := some "abc123" }
     "abc123" rfl (by decide)⟩

/-- C6: an article whose transformation fails (the backend exhausts the
budget without a structurally valid response) is dropped with no partial
JSON written and no change to the shared set, the failure surfaces as the
exception caught at the dispatch boundary (main.py:417-423), and the rest of
the run — final hash set and all records written — is exactly as if that
article had not been in the batch. -/
theorem C6_transform_failure_dropped_and_contained (sha : String → String)
    (api_key : Option String) (hash_key : String) (bad : Job)
    (pre post : List Job) (s0 : List String)
    (hkey : truthyOpt api_key = true)
    (hbad : ∀ j, j < max_retries → validResp (bad.backend j) = false)
    (hnd : ∀ h, dedupToken sha bad.article hash_key = some h → h ∉ s0) :
    process_single_article sha api_key bad.backend bad.imageSample bad.saveOk
      bad.now_str bad.ts_str bad.article hash_key s0
      = (.exn "TypeError: NoneType object does not support item assignment", s0, [])
    ∧ (runJobs sha api_key hash_key (pre ++ bad :: post) s0).2
        = (runJobs sha api_key hash_key (pre ++ post) s0).2 := by
  have hconv : convert_to_emojipasta api_key bad.backend = .ok none :=
    convert_exhaustion_none api_key bad.backend hkey hbad
  constructor
  · exact process_transform_none sha api_key bad.backend bad.imageSample bad.saveOk
      bad.now_str bad.ts_str bad.article hash_key s0 hconv hnd
  · rw [runJobs_append sha api_key hash_key pre (bad :: post) s0,
        runJobs_append sha api_key hash_key pre post s0,
        runJobs_cons]
    have hp := process_state_preserving sha api_key bad.backend bad.imageSample
      bad.saveOk bad.now_str bad.ts_str bad.article hash_key
      ((runJobs sha api_key hash_key pre s0).2.1) hconv
    have hp1 : (process_single_article sha api_key bad.backend bad.imageSample
        bad.saveOk bad.now_str bad.ts_str bad.article hash_key
        ((runJobs sha api_key hash_key pre s0).2.1)).2.1
        = (runJobs sha api_key hash_key pre s0).2.1 := by rw [hp]
    have hp2 : (process_single_article sha api_key bad.backend bad.imageSample
        bad.saveOk bad.now_str bad.ts_str bad.article hash_key
        ((runJobs sha api_key hash_key pre s0).2.1)).2.2 = [] := by rw [hp]
    simp [hp1, hp2]

theorem C6_transform_failure_dropped_and_contained_witness :
    truthyOpt (some "x") = true
    ∧ (∀ j, j < max_retries → validResp (badJob.backend j) = false)
    ∧ process_single_article shaStub (some "x") badJob.backend badJob.imageSample
        badJob.saveOk badJob.now_str badJob.ts_str badJob.article "k" []
        = (.exn "TypeError: NoneType object does not support item assignment", [], [])
    ∧ (runJobs shaStub (some "x") "k" ([jobTestEvent] ++ badJob :: []) []).2
        = (runJobs shaStub (some "x") "k" ([jobTestEvent] ++ []) []).2 :=
  ⟨by decide, fun j _ => by simp [badJob, backendAllBad, validResp],
   (C6_transform_failure_dropped_and_contained shaStub (some "x") "k" badJob
      [jobTestEvent] [] [] (by decide)
      (fun j _ => by simp [badJob, backendAllBad, validResp])
      (fun h _ => by simp)).1,
   (C6_transform_failure_dropped_and_contained shaStub (some "x") "k" badJob
      [jobTestEvent] [] [] (by decide)
      (fun j _ => by simp [badJob, backendAllBad, validResp])
      (fun h _ => by simp)).2⟩

/-! ## Lemmas about the re-encoding loop -/

theorem shrinkGo_mem (encode : Nat → List Nat) :
    ∀ fuel quality, quality ≤ 5 * fuel + 25 →
      ∃ q ∈ qualGo fuel quality,
        (shrinkGo encode fuel quality (encode quality)).2 = encode q := by
  intro fuel
  induction fuel with
  | zero =>
    intro quality _
    exact ⟨quality, by simp [qualGo], rfl⟩
  | succ n ih =>
    intro quality hq
    rw [shrinkGo, qualGo]
    by_cases hc : 1000000 < (encode quality).length ∧ 30 ≤ quality
    · obtain ⟨q, hmem, heq⟩ := ih (quality - 5) (by omega)
      exact ⟨q, by simp [hc, hc.2, hmem], by simp [hc, heq]⟩
    · refine ⟨quality, ?_, by simp [hc]⟩
      by_cases h30 : 30 ≤ quality <;> simp [h30]

theorem qualGo_le : ∀ fuel quality q, q ∈ qualGo fuel quality → q ≤ quality := by
  intro fuel
  induction fuel with
  | zero =>
    intro quality q hmem
    rw [qualGo] at hmem
    simp at hmem
    omega
  | succ n ih =>
    intro quality q hmem
    rw [qualGo] at hmem
    by_cases h30 : 30 ≤ quality
    · rw [if_pos h30] at hmem
      rcases List.mem_cons.mp hmem with hqq | htail
      · omega
      · have := ih (quality - 5) q htail
        omega
    · rw [if_neg h30] at hmem
      simp at hmem
      omega

theorem shrinkGo_mem_first (encode : Nat → List Nat) :
    ∀ fuel quality, quality ≤ 5 * fuel + 25 →
      ∃ q ∈ qualGo fuel quality,
        (shrinkGo encode fuel quality (encode quality)).2 = encode q
        ∧ ∀ q' ∈ qualGo fuel quality, q < q' → 1000000 < (encode q').length := by
  intro fuel
  induction fuel with
  | zero =>
    intro quality _
    refine ⟨quality, by simp [qualGo], rfl, ?_⟩
    intro q' hmem _
    rw [qualGo] at hmem
    simp at hmem
    omega
  | succ n ih =>
    intro quality hq
    rw [shrinkGo, qualGo]
    by_cases hc : 1000000 < (encode quality).length ∧ 30 ≤ quality
    · obtain ⟨q, hmem, heq, hfirst⟩ := ih (quality - 5) (by omega)
      rw [if_pos hc, if_pos hc.2]
      refine ⟨q, List.mem_cons_of_mem _ hmem, heq, ?_⟩
      intro q' hmem' hlt
      rcases List.mem_cons.mp hmem' with hqq | htail
      · rw [hqq]; exact hc.1
      · exact hfirst q' htail hlt
    · rw [if_neg hc]
      refine ⟨quality, ?_, rfl, ?_⟩
      · by_cases h30 : 30 ≤ quality <;> simp [h30]
      · intro q' hmem' hlt
        by_cases h30 : 30 ≤ quality
        · rw [if_pos h30] at hmem'
          rcases List.mem_cons.mp hmem' with hqq | htail
          · omega
          · have := qualGo_le n (quality - 5) q' htail
            omega
        · rw [if_neg h30] at hmem'
          simp at hmem'
          omega

theorem shrinkGo_gt (encode : Nat → List Nat) :
    ∀ fuel quality, quality ≤ 5 * fuel + 25 →
      1000000 < (shrinkGo encode fuel quality (encode quality)).2.length →
      ∀ q ∈ qualGo fuel quality, 1000000 < (encode q).length := by
  intro fuel
  induction fuel with
  | zero =>
    intro quality _ hbig q hmem
    rw [qualGo] at hmem
    simp at hmem
    subst hmem
    simpa [shrinkGo] using hbig
  | succ n ih =>
    intro quality hq hbig q hmem
    rw [shrinkGo] at hbig
    rw [qualGo] at hmem
    by_cases hc : 1000000 < (encode quality).length ∧ 30 ≤ quality
    · rw [if_pos hc] at hbig
      rw [if_pos hc.2] at hmem
      rcases List.mem_cons.mp hmem with hqq | htail
      · subst hqq; exact hc.1
      · exact ih (quality - 5) (by omega) hbig q htail
    · rw [if_neg hc] at hbig
      simp at hbig
      by_cases h30 : 30 ≤ quality
      · rw [if_pos h30] at hmem
        have hnc : ¬ 1000000 < (encode quality).length := fun h => hc ⟨h, h30⟩
        omega
      · rw [if_neg h30] at hmem
        simp at hmem
        subst hmem
        exact hbig

/-- C9: for every decodable input image (represented by its JPEG encoder
`encode`, never producing empty output), the re-encoding loop terminates and
returns the encoding at one of the scheduled qualities (100 down to the
floor in steps of 5), stopping as soon as the ceiling is met: every
scheduled quality above the returned one exceeded the ceiling; the result is
at or below the 1,000,000-byte ceiling whenever some scheduled quality
achieves the ceiling; and the returned bytes are never empty. -/
theorem C9_reencode_bounded_nonempty (encode : Nat → List Nat)
    (hne : ∀ q, encode q ≠ []) :
    (∃ q ∈ qualSched 100, fit_image encode = encode q
       ∧ ∀ q' ∈ qualSched 100, q < q' → 1000000 < (encode q').length)
    ∧ ((∃ q ∈ qualSched 100, (encode q).length ≤ 1000000) →
        (fit_image encode).length ≤ 1000000)
    ∧ fit_image encode ≠ [] := by
  unfold fit_image shrinkLoop qualSched
  have hm := shrinkGo_mem_first encode 100 100 (by omega)
  refine ⟨hm, ?_, ?_⟩
  · rintro ⟨q, hq, hle⟩
    by_contra hgt
    push_neg at hgt
    exact absurd hle (by have := shrinkGo_gt encode 100 100 (by omega) hgt q hq; omega)
  · obtain ⟨q, _, heq, _⟩ := hm
    rw [heq]
    exact hne q

theorem C9_reencode_bounded_nonempty_witness :
    (∀ q, encodeStub q ≠ [])
    ∧ ((∃ q ∈ qualSched 100, fit_image encodeStub = encodeStub q
          ∧ ∀ q' ∈ qualSched 100, q < q' → 1000000 < (encodeStub q').length)
       ∧ ((∃ q ∈ qualSched 100, (encodeStub q).length ≤ 1000000) →
           (fit_image encodeStub).length ≤ 1000000)
       ∧ fit_image encodeStub ≠ []) :=
  ⟨fun _ => by simp [encodeStub],
   C9_reencode_bounded_nonempty encodeStub (fun _ => by simp [encodeStub])⟩

/-- C10: processing one article mutates the shared dedup set only by
inserting that article's own token, and only after its JSON record has been
written; in every other case — duplicate skip, transform failure or bare
result, image failure, persistence failure, or no token computed — the set
is left exactly as it was. Stated as a complete case split on the outcome:
either nothing was written and the set is unchanged, or a record was written
with no token computed and the set unchanged, or the record was written
successfully and the set grew by exactly the article's own token. -/
theorem C10_set_mutated_only_after_persist (sha : String → String)
    (api_key : Option String) (backend : Nat → BackendResp)
    (imageSample : PyResult (Nat → List Nat)) (saveOk : Bool)
    (now_str ts : String) (article : Article) (hash_key : String)
    (known : List String) :
    ((process_single_article sha api_key backend imageSample saveOk now_str ts
        article hash_key known).2.1 = known
      ∧ (process_single_article sha api_key backend imageSample saveOk now_str ts
          article hash_key known).2.2 = [])
    ∨ (dedupToken sha article hash_key = none
      ∧ (process_single_article sha api_key backend imageSample saveOk now_str ts
          article hash_key known).2.1 = known
      ∧ ∃ f d, (process_single_article sha api_key backend imageSample saveOk now_str ts
            article hash_key known).1 = .ok (some f)
        ∧ (process_single_article sha api_key backend imageSample saveOk now_str ts
            article hash_key known).2.2 = [d])
    ∨ (∃ h f d, dedupToken sha article hash_key = some h
        ∧ (process_single_article sha api_key backend imageSample saveOk now_str ts
            article hash_key known).1 = .ok (some f)
        ∧ (process_single_article sha api_key backend imageSample saveOk now_str ts
            article hash_key known).2.1 = insertToken known h
        ∧ (process_single_article sha api_key backend imageSample saveOk now_str ts
            article hash_key known).2.2 = [d]) := by
  rcases htok : dedupToken sha article hash_key with _ | h
  case none =>
    rcases hc : convert_to_emojipasta api_key backend with v | e
    case exn =>
      left
      unfold process_single_article
      simp [htok, hc]
    case ok =>
      rcases v with _ | pv
      case none =>
        left
        unfold process_single_article
        simp [htok, hc]
      case some =>
        rcases pv with d | s
        case strVal =>
          left
          unfold process_single_article
          simp [htok, hc]
        case obj =>
          rcases hi : generate_and_save_image api_key imageSample article.title ts
            with _ | f
          case none =>
            left
            unfold process_single_article
            simp [htok, hc, hi]
          case some =>
            rcases hs : saveOk with _ | _
            case false =>
              left
              unfold process_single_article
              simp [htok, hc, hi, hs]
            case true =>
              right; left
              refine ⟨rfl, ?_, ?_⟩
              · unfold process_single_article
                simp [htok, hc, hi, hs]
              · refine ⟨save_emojipasta_json_filename article.title ts,
                  dictSet (dictSet d "date" now_str) "image" (basename f), ?_, ?_⟩
                · unfold process_single_article
                  simp [htok, hc, hi, hs]
                · unfold process_single_article
                  simp [htok, hc, hi, hs]
  case some =>
    by_cases hmem : h ∈ known
    case pos =>
      left
      rw [process_skip sha api_key backend imageSample saveOk now_str ts article
        hash_key known h htok hmem]
      exact ⟨rfl, rfl⟩
    case neg =>
      rcases hc : convert_to_emojipasta api_key backend with v | e
      case exn =>
        left
        unfold process_single_article
        simp [htok, hmem, hc]
      case ok =>
        rcases v with _ | pv
        case none =>
          left
          unfold process_single_article
          simp [htok, hmem, hc]
        case some =>
          rcases pv with d | s
          case strVal =>
            left
            unfold process_single_article
            simp [htok, hmem, hc]
          case obj =>
            rcases hi : generate_and_save_image api_key imageSample article.title ts
              with _ | f
            case none =>
              left
              unfold process_single_article
              simp [htok, hmem, hc, hi]
            case some =>
              rcases hs : saveOk with _ | _
              case false =>
                left
                unfold process_single_article
                simp [htok, hmem, hc, hi, hs]
              case true =>
                right; right
                refine ⟨h, save_emojipasta_json_filename article.title ts,
                  dictSet (dictSet (dictSet d "article_id" h) "date" now_str)
                    "image" (basename f), rfl, ?_, ?_, ?_⟩
                · unfold process_single_article
                  simp [htok, hmem, hc, hi, hs]
                · unfold process_single_article
                  simp [htok, hmem, hc, hi, hs]
                · unfold process_single_article
                  simp [htok, hmem, hc, hi, hs]

end Hoglin
